import Mathlib

/-!
Shallow embedding of the sales-analytics aggregation logic of the
Django Traders storefront (`myapp/views.py`, `myapp/models.py`,
`myapp/recommendation_utils.py`).

Order-detail rows become `OrderLine` records over exact rationals; the
ORM aggregation queries of the dashboard views become pure list
transformations; the `ORDER BY` clauses become stable insertion sorts.
-/

namespace DjangoTraders

/-- One `order_details` row, together with the fields reachable through
its joins (`order__customer`, `product__category`, `order__order_date`).
`unit_price` and `discount` are `FloatField`s in the source; they are
embedded as exact rationals. `order_date` is kept as its year and month,
the only components the aggregation queries inspect. -/
structure OrderLine where
  orderId : Nat
  productId : Nat
  categoryId : Nat
  customerId : Nat
  unitPrice : ℚ
  quantity : ℤ
  discount : ℚ
  year : ℤ
  month : ℤ
deriving DecidableEq

/-- `OrderDetails.line_total` (models.py:232-235) and the
`line_revenue` ORM annotation used throughout views.py:
`unit_price * quantity * (1 - discount)`. -/
def lineRevenue (l : OrderLine) : ℚ :=
  l.unitPrice * l.quantity * (1 - l.discount)

/-- `Count('order', distinct=True)`: number of distinct order ids. -/
def distinctOrderCount (lines : List OrderLine) : Nat :=
  ((lines.map OrderLine.orderId).dedup).length

/-- `Sum('quantity')` with the `or 0` coalescing of views.py. -/
def totalQuantity (lines : List OrderLine) : ℤ :=
  (lines.map OrderLine.quantity).sum

/-- `Sum('line_revenue')` with the `or 0` coalescing of views.py. -/
def totalRevenue (lines : List OrderLine) : ℚ :=
  (lines.map lineRevenue).sum

/-- The summary record built by `ManagerDashboardView.get_context_data`
(views.py:944-960): distinct-order count, quantity sum, revenue sum,
average order value (guarded against a zero order count) and the mean
discount (SQL `AVG`, `NULL` coalesced to 0 on the empty set). -/
structure Summary where
  total_orders : Nat
  total_quantity : ℤ
  total_revenue : ℚ
  avg_order_value : ℚ
  avg_discount : ℚ
deriving DecidableEq

/-- The aggregate of views.py:944-960: `Count('order', distinct=True)`,
`Sum('quantity')`, `Sum('line_revenue')`, `Avg('discount')`, with
`avg_order_value = total_revenue / total_orders if total_orders else 0`
(views.py:959) and the `or 0` defaults for the empty queryset. -/
def summarize (lines : List OrderLine) : Summary :=
  let orders := distinctOrderCount lines
  let revenue := totalRevenue lines
  { total_orders := orders
    total_quantity := totalQuantity lines
    total_revenue := revenue
    avg_order_value := if orders = 0 then 0 else revenue / (orders : ℚ)
    avg_discount :=
      if lines.length = 0 then 0
      else (lines.map OrderLine.discount).sum / (lines.length : ℚ) }

/-- The comparison ratio of views.py:1113-1116: revenue per order-detail
row, `0` when there are no rows. -/
def avgRevenuePerLine (lines : List OrderLine) : ℚ :=
  if 0 < lines.length then totalRevenue lines / (lines.length : ℚ) else 0

/-- The volume-discount computation of `OrderCreateView.form_valid`
(views.py:494-515): a base tier from the total item count of the cart
(`>= 50 → 0.15`, `>= 25 → 0.10`, `>= 10 → 0.05`, else `0`), and for a
line of quantity `>= 10` the surcharged value
`min(base_discount + 0.05, 0.20)`. -/
def volumeDiscount (totalItems : ℕ) (lineQuantity : ℕ) : ℚ :=
  let base : ℚ :=
    if totalItems ≥ 50 then 15/100
    else if totalItems ≥ 25 then 10/100
    else if totalItems ≥ 10 then 5/100
    else 0
  if lineQuantity ≥ 10 then min (base + 5/100) (20/100) else base

/-- The discounts written onto the generated `OrderDetails` rows by the
loop of views.py:511-523: one per cart item, from the cart's total item
count and the item's own quantity. -/
def orderLineDiscounts (cartQuantities : List ℕ) : List ℚ :=
  cartQuantities.map (fun q => volumeDiscount cartQuantities.sum q)

/-- `volumeDiscount` restated from the specification's words: base tier
by total order quantity (`<10 → 0.00`; `10-24 → 0.05`; `25-49 → 0.10`;
`>=50 → 0.15`), plus `0.05` when the single line's quantity is `>= 10`,
capped at `0.20` overall. -/
def volumeDiscountSpec (totalItems : ℕ) (lineQuantity : ℕ) : ℚ :=
  let base : ℚ :=
    if totalItems < 10 then 0
    else if totalItems ≤ 24 then 5/100
    else if totalItems ≤ 49 then 10/100
    else 15/100
  if 10 ≤ lineQuantity then min (base + 5/100) (20/100) else base

/-- The two lines of the spec's worked scenario:
`{product=A, qty=2, price=10, discount=0}`. -/
def scenarioLineA : OrderLine :=
  { orderId := 1, productId := 1, categoryId := 1, customerId := 1
    unitPrice := 10, quantity := 2, discount := 0, year := 2024, month := 1 }

/-- `{product=A, qty=3, price=10, discount=0.1}`. -/
def scenarioLineB : OrderLine :=
  { orderId := 2, productId := 1, categoryId := 1, customerId := 1
    unitPrice := 10, quantity := 3, discount := 1/10, year := 2024, month := 1 }

/-- C1: the engine's per-line revenue is `unit_price * quantity *
(1 - discount)`, and on the spec's scenario the two line revenues are
20 and 27, summarizing to `total_revenue = 47`, `total_quantity = 5`. -/
theorem lineRevenue_formula_and_scenario :
    (∀ l : OrderLine, lineRevenue l = l.unitPrice * l.quantity * (1 - l.discount)) ∧
    lineRevenue scenarioLineA = 20 ∧
    lineRevenue scenarioLineB = 27 ∧
    (summarize [scenarioLineA, scenarioLineB]).total_revenue = 47 ∧
    (summarize [scenarioLineA, scenarioLineB]).total_quantity = 5 := by
  refine ⟨fun l => rfl, ?_, ?_, ?_, ?_⟩
  · norm_num [lineRevenue, scenarioLineA]
  · norm_num [lineRevenue, scenarioLineB]
  · norm_num [summarize, totalRevenue, lineRevenue, scenarioLineA, scenarioLineB]
  · norm_num [summarize, totalQuantity, scenarioLineA, scenarioLineB]

/-- C2: the order-creation discount agrees everywhere with the spec's
tier table (base by total quantity, `+0.05` surcharge for a line of
quantity `>= 10`, capped at `0.20`), and takes the four sample values
`0.00`, `0.05`, `0.15`, `0.20` at the spec's sample inputs. -/
theorem volumeDiscount_spec_agreement :
    (∀ t q : ℕ, volumeDiscount t q = volumeDiscountSpec t q) ∧
    volumeDiscount 5 5 = 0 ∧
    volumeDiscount 12 5 = 5/100 ∧
    volumeDiscount 30 15 = 15/100 ∧
    volumeDiscount 60 20 = 20/100 := by
  refine ⟨?_, ?_, ?_, ?_, ?_⟩
  · intro t q
    unfold volumeDiscount volumeDiscountSpec
    split_ifs <;> first | rfl | omega
  · norm_num [volumeDiscount]
  · norm_num [volumeDiscount]
  · norm_num [volumeDiscount, min_def]
  · norm_num [volumeDiscount, min_def]

/-- C3: on the empty line sequence `summarize` yields the all-zero
summary (and, being a total function, cannot raise). -/
theorem summarize_empty :
    summarize [] =
      { total_orders := 0, total_quantity := 0, total_revenue := 0
        avg_order_value := 0, avg_discount := 0 } := by
  simp [summarize, totalQuantity, totalRevenue, distinctOrderCount]

/-- C4: every ratio the engine computes guards its denominator:
`avg_order_value` is `total_revenue / total_orders` when there are
orders and `0` otherwise; the mean discount and the per-line revenue
average are likewise `0` on the empty row set. -/
theorem summarize_ratio_guards (lines : List OrderLine) :
    ((summarize lines).total_orders = 0 → (summarize lines).avg_order_value = 0) ∧
    (0 < (summarize lines).total_orders →
      (summarize lines).avg_order_value =
        (summarize lines).total_revenue / ((summarize lines).total_orders : ℚ)) ∧
    (lines = [] → (summarize lines).avg_discount = 0 ∧ avgRevenuePerLine lines = 0) := by
  refine ⟨?_, ?_, ?_⟩
  · intro h
    simp only [summarize] at h ⊢
    simp [h]
  · intro h
    have hne : distinctOrderCount lines ≠ 0 := by
      simpa [summarize] using Nat.pos_iff_ne_zero.mp h
    simp [summarize, hne]
  · rintro rfl
    exact ⟨by simp [summarize], by simp [avgRevenuePerLine]⟩

/-- C4 witness: the guards at the empty list and at a one-line list. -/
theorem summarize_ratio_guards_witness :
    (summarize []).avg_order_value = 0 ∧
    (summarize [scenarioLineA]).avg_order_value =
      (summarize [scenarioLineA]).total_revenue /
        ((summarize [scenarioLineA]).total_orders : ℚ) ∧
    (summarize []).avg_discount = 0 := by
  refine ⟨(summarize_ratio_guards []).1 (by decide),
          (summarize_ratio_guards [scenarioLineA]).2.1 (by decide),
          ((summarize_ratio_guards []).2.2 rfl).1⟩

/-! ### Rankings (top/bottom-N listings, views.py:1006-1055) -/

/-- The grouping dimension of the ranking queries:
`.values('product__product_id', ...)` or
`.values('product__category__category_id', ...)`. -/
inductive Dimension
  | product
  | category
deriving DecidableEq

/-- The ranking metric of the `order_by` clause: `total_quantity` or
`total_revenue`. -/
inductive Metric
  | quantity
  | revenue
deriving DecidableEq

/-- The sort direction: `order_by('-...')` is `desc`, `order_by('...')`
is `asc`. -/
inductive Direction
  | asc
  | desc
deriving DecidableEq

/-- The natural key of each dimension. -/
def dimensionKey : Dimension → OrderLine → Nat
  | .product => OrderLine.productId
  | .category => OrderLine.categoryId

/-- One group row of the ranking queries: entity key plus the
`Sum('quantity')`, `Sum('line_revenue')` and
`Count('order', distinct=True)` annotations. -/
structure RankedEntity where
  entityId : Nat
  quantity_sum : ℤ
  revenue_sum : ℚ
  order_count : Nat
deriving DecidableEq

/-- The `annotate` aggregates of the group with key `k`. -/
def aggregateFor (key : OrderLine → Nat) (lines : List OrderLine) (k : Nat) :
    RankedEntity :=
  let rows := lines.filter (fun l => key l == k)
  { entityId := k
    quantity_sum := totalQuantity rows
    revenue_sum := totalRevenue rows
    order_count := distinctOrderCount rows }

/-- `.values(key).annotate(...)`: one aggregated row per distinct key. -/
def groupByKey (key : OrderLine → Nat) (lines : List OrderLine) :
    List RankedEntity :=
  ((lines.map key).dedup).map (aggregateFor key lines)

/-- The value the `order_by` clause compares. -/
def metricValue : Metric → RankedEntity → ℚ
  | .quantity => fun e => (e.quantity_sum : ℚ)
  | .revenue => fun e => e.revenue_sum

/-- The order relation of the `order_by` clause. -/
def metricRel (m : Metric) : Direction → RankedEntity → RankedEntity → Prop
  | .desc => fun a b => metricValue m b ≤ metricValue m a
  | .asc => fun a b => metricValue m a ≤ metricValue m b

instance metricRelDecidable (m : Metric) (d : Direction) :
    DecidableRel (metricRel m d) :=
  match d with
  | .desc => fun a b => inferInstanceAs (Decidable (metricValue m b ≤ metricValue m a))
  | .asc => fun a b => inferInstanceAs (Decidable (metricValue m a ≤ metricValue m b))

instance metricRelTotal (m : Metric) (d : Direction) :
    IsTotal RankedEntity (metricRel m d) :=
  ⟨by cases d <;> intro a b <;> exact le_total _ _⟩

instance metricRelTrans (m : Metric) (d : Direction) :
    IsTrans RankedEntity (metricRel m d) :=
  ⟨by cases d <;> intro a b c h1 h2 <;>
    first | exact le_trans h2 h1 | exact le_trans h1 h2⟩

/-- The ranking pattern of the dashboard views (views.py:1007-1021,
1024-1038, 814-826, 850-862, ...): group by the dimension, aggregate,
`order_by` the requested metric (a stable sort), slice `[:limit]`. -/
def rankEntities (lines : List OrderLine) (d : Dimension) (m : Metric)
    (dir : Direction) (limit : ℕ) : List RankedEntity :=
  (List.insertionSort (metricRel m dir) (groupByKey (dimensionKey d) lines)).take limit

/-- views.py:1006-1038: the top-n products by revenue
(`order_by('-total_revenue')[:n]`) paired with the bottom-n
(`order_by('total_revenue')[:n]`). -/
def topBottomByRevenue (lines : List OrderLine) (n : ℕ) :
    List RankedEntity × List RankedEntity :=
  (rankEntities lines .product .revenue .desc n,
   rankEntities lines .product .revenue .asc n)

theorem rankEntities_length_le (lines : List OrderLine) (d : Dimension)
    (m : Metric) (dir : Direction) (limit : ℕ) :
    (rankEntities lines d m dir limit).length ≤ limit := by
  simp [rankEntities]

theorem rankEntities_sorted (lines : List OrderLine) (d : Dimension)
    (m : Metric) (dir : Direction) (limit : ℕ) :
    List.Sorted (metricRel m dir) (rankEntities lines d m dir limit) :=
  (List.sorted_insertionSort _ _).sublist (List.take_sublist _ _)

/-- C5: every ranking the engine produces has length at most `limit`
and is sorted non-increasingly (for `desc`) or non-decreasingly (for
`asc`) by the chosen metric. -/
theorem rankEntities_length_and_sorted (lines : List OrderLine) (d : Dimension)
    (m : Metric) (dir : Direction) (limit : ℕ) :
    (rankEntities lines d m dir limit).length ≤ limit ∧
    List.Sorted (metricRel m dir) (rankEntities lines d m dir limit) :=
  ⟨rankEntities_length_le lines d m dir limit,
   rankEntities_sorted lines d m dir limit⟩

/-! ### Period buckets (views.py:963-1004) -/

/-- The bucketing granularity: `TruncYear` or `TruncMonth` on
`order__order_date`. -/
inductive Granularity
  | year
  | month
deriving DecidableEq

/-- One row of the time-bucketed rollups: period key plus the
`Count('order', distinct=True)`, `Sum('quantity')` and
`Sum('line_revenue')` annotations. -/
structure PeriodSummary where
  period : ℤ
  order_count : Nat
  quantity_sum : ℤ
  revenue_sum : ℚ
deriving DecidableEq

/-- The truncated date, as a totally ordered integer key: the year
itself, or `12 * year + month` for a month (chronological order). -/
def periodKey : Granularity → OrderLine → ℤ
  | .year => OrderLine.year
  | .month => fun l => 12 * l.year + l.month

/-- The aggregates of the bucket with period key `p`. -/
def periodAggregate (g : Granularity) (lines : List OrderLine) (p : ℤ) :
    PeriodSummary :=
  let rows := lines.filter (fun l => periodKey g l == p)
  { period := p
    order_count := distinctOrderCount rows
    quantity_sum := totalQuantity rows
    revenue_sum := totalRevenue rows }

/-- The `order_by` direction of the bucketing queries:
`order_by('month')` ascending for the month drill-down
(views.py:977-990) and `order_by('-year')` descending for the yearly
overview (views.py:963-974). -/
def periodRel : Granularity → ℤ → ℤ → Prop
  | .year => fun a b => b ≤ a
  | .month => fun a b => a ≤ b

instance periodRelDecidable (g : Granularity) : DecidableRel (periodRel g) :=
  match g with
  | .year => fun a b => inferInstanceAs (Decidable (b ≤ a))
  | .month => fun a b => inferInstanceAs (Decidable (a ≤ b))

instance periodRelTotal (g : Granularity) : IsTotal ℤ (periodRel g) :=
  ⟨by cases g <;> intro a b <;> exact le_total _ _⟩

instance periodRelTrans (g : Granularity) : IsTrans ℤ (periodRel g) :=
  ⟨by cases g <;> intro a b c h1 h2 <;>
    first | exact le_trans h2 h1 | exact le_trans h1 h2⟩

/-- The `values(period).annotate(...).order_by(...)` rollup: one
`PeriodSummary` per distinct period, in the direction fixed by the
granularity. -/
def bucketByPeriod (g : Granularity) (lines : List OrderLine) :
    List PeriodSummary :=
  (List.insertionSort (periodRel g) ((lines.map (periodKey g)).dedup)).map
    (periodAggregate g lines)

/-- C7: the month-level rollup is ordered ascending by period start and
the year-level overview rollup is ordered descending by period, for
every input line sequence. -/
theorem bucketByPeriod_ordering (lines : List OrderLine) :
    List.Sorted (fun a b : PeriodSummary => a.period ≤ b.period)
      (bucketByPeriod .month lines) ∧
    List.Sorted (fun a b : PeriodSummary => b.period ≤ a.period)
      (bucketByPeriod .year lines) := by
  have h1 := List.sorted_insertionSort (periodRel .month)
    ((lines.map (periodKey .month)).dedup)
  have h2 := List.sorted_insertionSort (periodRel .year)
    ((lines.map (periodKey .year)).dedup)
  exact ⟨List.pairwise_map.mpr (h1.imp (fun h => h)),
         List.pairwise_map.mpr (h2.imp (fun h => h))⟩

/-! ### Top/bottom disjointness -/

/-- Three one-unit lines of three different products with the same unit
price and discount: every ranked product aggregates to the same
revenue. -/
def tieLines : List OrderLine :=
  [ { orderId := 1, productId := 1, categoryId := 1, customerId := 1
      unitPrice := 10, quantity := 1, discount := 0, year := 2024, month := 1 }
  , { orderId := 2, productId := 2, categoryId := 1, customerId := 1
      unitPrice := 10, quantity := 1, discount := 0, year := 2024, month := 1 }
  , { orderId := 3, productId := 3, categoryId := 1, customerId := 1
      unitPrice := 10, quantity := 1, discount := 0, year := 2024, month := 1 } ]

/-- C6 counterexample: on `tieLines` there are 3 distinct ranked
products and `n = 1`, so `2 * n ≤ 3`, yet the stable sorts place the
same tied product first in both directions: top and bottom overlap. -/
theorem topBottom_tie_counterexample :
    2 * 1 ≤ (groupByKey (dimensionKey .product) tieLines).length ∧
    ¬ List.Disjoint (topBottomByRevenue tieLines 1).1
        (topBottomByRevenue tieLines 1).2 := by
  have htop : (topBottomByRevenue tieLines 1).1 =
      [aggregateFor (dimensionKey .product) tieLines 1] := by
    norm_num [topBottomByRevenue, rankEntities, groupByKey, tieLines,
      dimensionKey, metricRel, metricValue, aggregateFor, totalQuantity,
      totalRevenue, lineRevenue, distinctOrderCount, List.dedup]
  have hbot : (topBottomByRevenue tieLines 1).2 =
      [aggregateFor (dimensionKey .product) tieLines 1] := by
    norm_num [topBottomByRevenue, rankEntities, groupByKey, tieLines,
      dimensionKey, metricRel, metricValue, aggregateFor, totalQuantity,
      totalRevenue, lineRevenue, distinctOrderCount, List.dedup]
  refine ⟨by norm_num [groupByKey, tieLines, dimensionKey, List.dedup], ?_⟩
  intro hdisj
  exact hdisj (htop ▸ List.mem_singleton.mpr rfl)
    (hbot ▸ List.mem_singleton.mpr rfl)

/-- C6 (amended): top is sorted descending and bottom ascending by
aggregated revenue, both truncated to `n`; and when the aggregated
revenues are pairwise distinct (no ties) the two lists are disjoint
whenever `2 * n` does not exceed the number of distinct ranked
products. -/
theorem topBottomByRevenue_spec (lines : List OrderLine) (n : ℕ)
    (hnodup : ((groupByKey (dimensionKey .product) lines).map
      RankedEntity.revenue_sum).Nodup)
    (hn : 2 * n ≤ (groupByKey (dimensionKey .product) lines).length) :
    List.Disjoint (topBottomByRevenue lines n).1 (topBottomByRevenue lines n).2 ∧
    (topBottomByRevenue lines n).1.length ≤ n ∧
    (topBottomByRevenue lines n).2.length ≤ n ∧
    List.Sorted (metricRel .revenue .desc) (topBottomByRevenue lines n).1 ∧
    List.Sorted (metricRel .revenue .asc) (topBottomByRevenue lines n).2 := by
  refine ⟨?_, rankEntities_length_le lines .product .revenue .desc n,
    rankEntities_length_le lines .product .revenue .asc n,
    rankEntities_sorted lines .product .revenue .desc n,
    rankEntities_sorted lines .product .revenue .asc n⟩
  show List.Disjoint (rankEntities lines .product .revenue .desc n)
    (rankEntities lines .product .revenue .asc n)
  simp only [rankEntities]
  set E := groupByKey (dimensionKey .product) lines with hE
  set L := List.insertionSort (metricRel .revenue .desc) E with hL
  set M := List.insertionSort (metricRel .revenue .asc) E with hM
  have permL : List.Perm L E := List.perm_insertionSort _ _
  have permM : List.Perm M E := List.perm_insertionSort _ _
  have mapNodupL : (L.map RankedEntity.revenue_sum).Nodup :=
    hnodup.perm (permL.map _).symm
  have mapNodupM : (M.map RankedEntity.revenue_sum).Nodup :=
    hnodup.perm (permM.map _).symm
  have sortL : List.Sorted (metricRel .revenue .desc) L :=
    List.sorted_insertionSort _ _
  have sortM : List.Sorted (metricRel .revenue .asc) M :=
    List.sorted_insertionSort _ _
  have strictL : L.Pairwise (fun a b => b.revenue_sum < a.revenue_sum) := by
    have hne : L.Pairwise (fun a b => a.revenue_sum ≠ b.revenue_sum) :=
      List.pairwise_map.mp mapNodupL
    exact (sortL.and hne).imp (fun h => lt_of_le_of_ne h.1 (Ne.symm h.2))
  have strictM : M.Pairwise (fun a b => a.revenue_sum < b.revenue_sum) := by
    have hne : M.Pairwise (fun a b => a.revenue_sum ≠ b.revenue_sum) :=
      List.pairwise_map.mp mapNodupM
    exact (sortM.and hne).imp (fun h => lt_of_le_of_ne h.1 h.2)
  have strictRevM : M.reverse.Pairwise (fun a b => b.revenue_sum < a.revenue_sum) :=
    List.pairwise_reverse.mpr strictM
  have permRev : List.Perm M.reverse L := (M.reverse_perm.trans permM).trans permL.symm
  haveI : IsAntisymm RankedEntity (fun a b => b.revenue_sum < a.revenue_sum) :=
    ⟨fun a b h1 h2 => absurd (lt_trans h1 h2) (lt_irrefl _)⟩
  have heq : M.reverse = L := List.eq_of_perm_of_sorted permRev strictRevM strictL
  have hML : M = L.reverse := by rw [← heq, List.reverse_reverse]
  have nodupL : L.Nodup := List.Nodup.of_map _ mapNodupL
  have hlenL : L.length = E.length := permL.length_eq
  intro x hx1 hx2
  rw [hML, List.take_reverse, List.mem_reverse] at hx2
  have hnk : n ≤ L.length - n := by omega
  have htk : (L.take (L.length - n)).take n = L.take n := by
    rw [List.take_take, min_eq_left hnk]
  rw [← htk] at hx1
  have hx1' : x ∈ L.take (L.length - n) := List.take_subset _ _ hx1
  have hdisj : List.Disjoint (L.take (L.length - n)) (L.drop (L.length - n)) := by
    apply List.disjoint_of_nodup_append
    rw [List.take_append_drop]
    exact nodupL
  exact hdisj hx1' hx2

/-- Three lines of three different products with pairwise different
aggregated revenues. -/
def distinctRevenueLines : List OrderLine :=
  [ { orderId := 1, productId := 1, categoryId := 1, customerId := 1
      unitPrice := 10, quantity := 1, discount := 0, year := 2024, month := 1 }
  , { orderId := 2, productId := 2, categoryId := 1, customerId := 1
      unitPrice := 20, quantity := 1, discount := 0, year := 2024, month := 1 }
  , { orderId := 3, productId := 3, categoryId := 1, customerId := 1
      unitPrice := 30, quantity := 1, discount := 0, year := 2024, month := 1 } ]

/-- C6 witness: on `distinctRevenueLines` with `n = 1` the hypotheses of
the amended statement hold and the top-1 and bottom-1 lists are
disjoint. -/
theorem topBottomByRevenue_spec_witness :
    ((groupByKey (dimensionKey .product) distinctRevenueLines).map
      RankedEntity.revenue_sum).Nodup ∧
    2 * 1 ≤ (groupByKey (dimensionKey .product) distinctRevenueLines).length ∧
    List.Disjoint (topBottomByRevenue distinctRevenueLines 1).1
      (topBottomByRevenue distinctRevenueLines 1).2 := by
  have h1 : ((groupByKey (dimensionKey .product) distinctRevenueLines).map
      RankedEntity.revenue_sum).Nodup := by
    norm_num [groupByKey, distinctRevenueLines, dimensionKey, aggregateFor,
      totalRevenue, lineRevenue, List.dedup]
  have h2 : 2 * 1 ≤ (groupByKey (dimensionKey .product) distinctRevenueLines).length := by
    norm_num [groupByKey, distinctRevenueLines, dimensionKey, List.dedup]
  exact ⟨h1, h2, (topBottomByRevenue_spec distinctRevenueLines 1 h1 h2).1⟩

/-! ### Product recommendations (recommendation_utils.py) -/

/-- A `products` row: id, category and the `discontinued` flag. -/
structure Product where
  productId : Nat
  categoryId : Nat
  discontinued : Bool
deriving DecidableEq

/-- The order store the views query: the product table, the category id
table and all order-detail rows (with their joined fields). -/
structure Store where
  products : List Product
  categories : List Nat
  lines : List OrderLine
deriving DecidableEq

/-- recommendation_utils.py:29-31: the distinct product ids the customer
has ordered. -/
def customerProductIds (store : Store) (c : Nat) : List Nat :=
  (((store.lines.filter (fun l => l.customerId == c)).map OrderLine.productId)).dedup

/-- The per-product global annotations of the top-seller queries:
`purchase_count = Count('orderdetails__order', distinct=True)` and
`total_quantity = Sum('orderdetails__quantity')`. -/
structure SellerStats where
  productId : Nat
  purchase_count : Nat
  total_quantity : ℤ
deriving DecidableEq

/-- The annotations of one product. -/
def sellerStats (store : Store) (p : Product) : SellerStats :=
  let rows := store.lines.filter (fun l => l.productId == p.productId)
  { productId := p.productId
    purchase_count := distinctOrderCount rows
    total_quantity := totalQuantity rows }

/-- `order_by('-purchase_count', '-total_quantity')`. -/
def sellerRel (a b : SellerStats) : Prop :=
  b.purchase_count < a.purchase_count ∨
    (a.purchase_count = b.purchase_count ∧ b.total_quantity ≤ a.total_quantity)

instance sellerRelDecidable : DecidableRel sellerRel :=
  fun a b => inferInstanceAs (Decidable (b.purchase_count < a.purchase_count ∨
    (a.purchase_count = b.purchase_count ∧ b.total_quantity ≤ a.total_quantity)))

/-- The top-seller query of recommendation_utils.py:35-44 and 59-70:
non-discontinued products outside `excluded`, annotated, kept when
`purchase_count > 0`, ordered by `(-purchase_count, -total_quantity)`
and truncated to `limit`. The step-2 fallback is `excluded = []`; the
step-4 fallback excludes the customer's own products. -/
def topSellers (store : Store) (excluded : List Nat) (limit : ℕ) : List Nat :=
  let pool := store.products.filter
    (fun p => !p.discontinued && !(excluded.contains p.productId))
  let stats := (pool.map (sellerStats store)).filter
    (fun s => s.purchase_count != 0)
  ((List.insertionSort sellerRel stats).take limit).map SellerStats.productId

/-- `order_by('-shared_products')` on `(customer, shared count)` pairs. -/
def sharedRel (a b : Nat × Nat) : Prop := b.2 ≤ a.2

instance sharedRelDecidable : DecidableRel sharedRel :=
  fun a b => inferInstanceAs (Decidable (b.2 ≤ a.2))

/-- recommendation_utils.py:47-55: group the rows whose product the
target customer has bought by customer, count distinct shared products,
drop the target customer, order by the shared count descending and keep
the top 50 customer ids. -/
def similarCustomers (store : Store) (c : Nat) (cps : List Nat) : List Nat :=
  let rows := store.lines.filter (fun l => cps.contains l.productId)
  let custs := ((rows.map OrderLine.customerId).dedup).filter (fun o => o != c)
  let ranked := custs.map (fun o =>
    (o, ((rows.filter (fun l => l.customerId == o)).map OrderLine.productId).dedup.length))
  ((List.insertionSort sharedRel ranked).take 50).map Prod.fst

/-- The step-5 annotations: purchase, customer and quantity aggregates
over the rows of the similar customers only. -/
structure RecStats where
  productId : Nat
  purchase_count : Nat
  customer_count : Nat
  total_quantity : ℤ
deriving DecidableEq

/-- `order_by('-purchase_count', '-customer_count', '-total_quantity')`. -/
def recRel (a b : RecStats) : Prop :=
  b.purchase_count < a.purchase_count ∨
    (a.purchase_count = b.purchase_count ∧
      (b.customer_count < a.customer_count ∨
        (a.customer_count = b.customer_count ∧ b.total_quantity ≤ a.total_quantity)))

instance recRelDecidable : DecidableRel recRel :=
  fun a b => inferInstanceAs (Decidable (b.purchase_count < a.purchase_count ∨
    (a.purchase_count = b.purchase_count ∧
      (b.customer_count < a.customer_count ∨
        (a.customer_count = b.customer_count ∧ b.total_quantity ≤ a.total_quantity)))))

/-- recommendation_utils.py:74-84: non-discontinued products bought by
at least one similar customer and not by the target customer, annotated
over the similar customers' rows, ordered and truncated to `limit`. -/
def collaborativeRecs (store : Store) (simIds : List Nat) (cps : List Nat)
    (limit : ℕ) : List Nat :=
  let rows := store.lines.filter (fun l => simIds.contains l.customerId)
  let pool := store.products.filter (fun p =>
    !p.discontinued && !(cps.contains p.productId) &&
      rows.any (fun l => l.productId == p.productId))
  let stats := pool.map (fun p =>
    let prows := rows.filter (fun l => l.productId == p.productId)
    ({ productId := p.productId
       purchase_count := distinctOrderCount prows
       customer_count := ((prows.map OrderLine.customerId).dedup).length
       total_quantity := totalQuantity prows } : RecStats))
  ((List.insertionSort recRel stats).take limit).map RecStats.productId

/-- `get_product_recommendations` (recommendation_utils.py:9-86): the
empty-history fallback, the no-similar-customers fallback (which also
excludes the customer's own products), and the collaborative step. -/
def getProductRecommendations (store : Store) (c : Nat) (limit : ℕ) : List Nat :=
  let cps := customerProductIds store c
  if cps.isEmpty then topSellers store [] limit
  else
    let sims := similarCustomers store c cps
    if sims.isEmpty then topSellers store cps limit
    else collaborativeRecs store sims cps limit

/-- A store in which customer 1 alone bought product 1 and customer 2
alone bought product 2: customer 1 shares no product with anyone, and
product 1 (quantity 5) outranks product 2 (quantity 3) globally. -/
def soloStore : Store :=
  { products := [ { productId := 1, categoryId := 1, discontinued := false }
                , { productId := 2, categoryId := 1, discontinued := false } ]
    categories := [1]
    lines :=
      [ { orderId := 1, productId := 1, categoryId := 1, customerId := 1
          unitPrice := 10, quantity := 5, discount := 0, year := 2024, month := 1 }
      , { orderId := 2, productId := 2, categoryId := 1, customerId := 2
          unitPrice := 10, quantity := 3, discount := 0, year := 2024, month := 1 } ] }

/-- C8 counterexample: customer 1 of `soloStore` has purchase history
but no similar customers, yet the recommendations `[2]` differ from the
step-2 global top sellers `[1, 2]`: the fallback excludes the
customer's own products, which step 2 does not. -/
theorem recommendations_fallback_counterexample :
    customerProductIds soloStore 1 ≠ [] ∧
    similarCustomers soloStore 1 (customerProductIds soloStore 1) = [] ∧
    getProductRecommendations soloStore 1 2 = [2] ∧
    topSellers soloStore [] 2 = [1, 2] := by
  refine ⟨by simp [customerProductIds, soloStore], ?_, ?_, ?_⟩
  · simp [similarCustomers, customerProductIds, soloStore, List.dedup]
  · simp [getProductRecommendations, customerProductIds, similarCustomers,
      topSellers, sellerStats, sellerRel, soloStore, distinctOrderCount,
      totalQuantity, List.dedup]
  · simp [topSellers, sellerStats, sellerRel, soloStore, distinctOrderCount,
      totalQuantity, List.dedup]

/-- C8 (amended): for a customer with at least one purchased product who
shares no product with any other customer, the recommendations are the
step-2 top-seller computation restricted to products the customer has
not already purchased: globally top-selling non-discontinued products
ordered by `(purchase_count desc, total_quantity desc)`, with the
customer's own products excluded, truncated to `limit`. -/
theorem recommendations_no_similar_fallback (store : Store) (c : Nat) (limit : ℕ)
    (h1 : customerProductIds store c ≠ [])
    (h2 : similarCustomers store c (customerProductIds store c) = []) :
    getProductRecommendations store c limit =
      topSellers store (customerProductIds store c) limit := by
  unfold getProductRecommendations
  simp [h1, h2]

/-- C8 witness: the amended fallback evaluated on `soloStore`. -/
theorem recommendations_no_similar_fallback_witness :
    customerProductIds soloStore 1 ≠ [] ∧
    similarCustomers soloStore 1 (customerProductIds soloStore 1) = [] ∧
    getProductRecommendations soloStore 1 2 =
      topSellers soloStore (customerProductIds soloStore 1) 2 := by
  have h1 : customerProductIds soloStore 1 ≠ [] := by
    simp [customerProductIds, soloStore]
  have h2 : similarCustomers soloStore 1 (customerProductIds soloStore 1) = [] := by
    simp [similarCustomers, customerProductIds, soloStore, List.dedup]
  exact ⟨h1, h2, recommendations_no_similar_fallback soloStore 1 2 h1 h2⟩

/-! ### Scope filters (views.py:1040-1198, 1278-1394) -/

/-- The year-scoped summary: `filter(order__order_date__year=y)` then
aggregate. A year matching no orders just yields the empty-queryset
aggregates; no entity lookup happens for a year. -/
def summarizeYearScoped (store : Store) (y : ℤ) : Summary :=
  summarize (store.lines.filter (fun l => l.year == y))

/-- The product drill-down of `ProductAnalysisView.get_context_data`
(views.py:1197-1226) and `ManagerDashboardView` (views.py:1058-1084):
`get_object_or_404(Products, product_id=...)` raises `Http404` when the
product does not exist (modelled as `none`) before any aggregation
runs; otherwise the product's rows are summarized. -/
def productAnalysisSummary (store : Store) (pid : Nat) : Option Summary :=
  if store.products.any (fun p => p.productId == pid) then
    some (summarize (store.lines.filter (fun l => l.productId == pid)))
  else none

/-- The category drill-down of `CategoryAnalysisView.get_context_data`
(views.py:1333-1361): `get_object_or_404(Categories, category_id=...)`
raises `Http404` (modelled as `none`) when the category id does not
exist; otherwise the category's rows are summarized. -/
def categoryAnalysisSummary (store : Store) (cid : Nat) : Option Summary :=
  if store.categories.contains cid then
    some (summarize (store.lines.filter (fun l => l.categoryId == cid)))
  else none

/-- C9 counterexample: `soloStore` has no product 999, and the product
drill-down raises (returns `none`) instead of returning the empty
result set the claim promises. -/
theorem scoped_query_counterexample :
    (soloStore.products.all (fun p => p.productId != 999)) = true ∧
    productAnalysisSummary soloStore 999 = none ∧
    productAnalysisSummary soloStore 999 ≠ some (summarize []) := by
  refine ⟨by simp [soloStore], ?_, ?_⟩ <;>
    simp [productAnalysisSummary, soloStore]

/-- C9 (amended): a year filter matching no order yields the
empty-queryset summary without raising, while a product or category id
that does not resolve to an existing entity makes the view signal
not-found (`Http404`, modelled as `none`) before any aggregation,
rather than returning an empty result set. -/
theorem scoped_query_spec (store : Store) (y : ℤ) (pid cid : Nat)
    (hy : store.lines.all (fun l => l.year != y))
    (hp : store.products.all (fun p => p.productId != pid))
    (hc : store.categories.contains cid = false) :
    summarizeYearScoped store y = summarize [] ∧
    productAnalysisSummary store pid = none ∧
    categoryAnalysisSummary store cid = none := by
  refine ⟨?_, ?_, ?_⟩
  · have hnil : store.lines.filter (fun l => l.year == y) = [] := by
      rw [List.filter_eq_nil_iff]
      intro l hl
      have := (List.all_eq_true.mp hy) l hl
      simpa using this
    rw [summarizeYearScoped, hnil]
  · have hfalse : store.products.any (fun p => p.productId == pid) = false := by
      rw [← Bool.not_eq_true, List.any_eq_true]
      rintro ⟨p, hp', hpe⟩
      have := (List.all_eq_true.mp hp) p hp'
      simp at this hpe
      exact this hpe
    simp [productAnalysisSummary, hfalse]
  · have : cid ∉ store.categories := by
      simpa using hc
    simp [categoryAnalysisSummary, hc, this]

/-- C9 witness: the amended behavior evaluated on `soloStore` with year
1999, product id 999 and category id 999, none of which exist. -/
theorem scoped_query_spec_witness :
    summarizeYearScoped soloStore 1999 = summarize [] ∧
    productAnalysisSummary soloStore 999 = none ∧
    categoryAnalysisSummary soloStore 999 = none :=
  scoped_query_spec soloStore 1999 999 999 (by simp [soloStore])
    (by simp [soloStore]) (by simp [soloStore])

/-! ### Discount range invariant -/

/-- C10: every discount the order-creation path writes onto an
`OrderLine` is one of `{0, 0.05, 0.10, 0.15, 0.20}`; hence it lies in
`[0, 0.20]`, is strictly below 1, and any line carrying it has
non-negative revenue whenever its unit price and quantity are
non-negative. -/
theorem orderLineDiscounts_range (cart : List ℕ) (d : ℚ)
    (hd : d ∈ orderLineDiscounts cart) :
    (d = 0 ∨ d = 5/100 ∨ d = 10/100 ∨ d = 15/100 ∨ d = 20/100) ∧
    0 ≤ d ∧ d ≤ 20/100 ∧ d < 1 ∧
    ∀ l : OrderLine, l.discount = d → 0 ≤ l.unitPrice → 0 ≤ l.quantity →
      0 ≤ lineRevenue l := by
  obtain ⟨q, -, rfl⟩ := List.mem_map.mp hd
  have hcases : volumeDiscount cart.sum q = 0 ∨ volumeDiscount cart.sum q = 5/100 ∨
      volumeDiscount cart.sum q = 10/100 ∨ volumeDiscount cart.sum q = 15/100 ∨
      volumeDiscount cart.sum q = 20/100 := by
    unfold volumeDiscount
    split_ifs <;> norm_num [min_def]
  refine ⟨hcases, ?_, ?_, ?_, ?_⟩
  · rcases hcases with h | h | h | h | h <;> rw [h] <;> norm_num
  · rcases hcases with h | h | h | h | h <;> rw [h] <;> norm_num
  · rcases hcases with h | h | h | h | h <;> rw [h] <;> norm_num
  · intro l hdisc hp hq
    have hdle : l.discount ≤ 1 := by
      rcases hcases with h | h | h | h | h <;> rw [hdisc, h] <;> norm_num
    have h1 : (0 : ℚ) ≤ 1 - l.discount := by linarith
    have hq' : (0 : ℚ) ≤ (l.quantity : ℚ) := by exact_mod_cast hq
    exact mul_nonneg (mul_nonneg hp hq') h1

/-- C10 witness: the cart `[12, 5]` (total 17) produces the discounts
`[0.10, 0.05]`, and `0.10` is in range. -/
theorem orderLineDiscounts_range_witness :
    (10/100 : ℚ) ∈ orderLineDiscounts [12, 5] ∧
    (0 ≤ (10/100 : ℚ) ∧ (10/100 : ℚ) ≤ 20/100 ∧ (10/100 : ℚ) < 1) := by
  have hd : (10/100 : ℚ) ∈ orderLineDiscounts [12, 5] := by
    norm_num [orderLineDiscounts, volumeDiscount, min_def]
  exact ⟨hd, ((orderLineDiscounts_range [12, 5] (10/100) hd).2.1),
    ((orderLineDiscounts_range [12, 5] (10/100) hd).2.2.1),
    ((orderLineDiscounts_range [12, 5] (10/100) hd).2.2.2.1)⟩

end DjangoTraders
